import Mathlib

/-!
Shallow embedding of the watermarker CLI (`src/index.js`).

JavaScript numbers are modelled by `ℚ`: every arithmetic step the program
performs (sums, differences, products, divisions by small constants,
`Math.floor`, `Math.min`, `Math.max`) is exact on the inputs of interest,
so rational arithmetic is faithful.  Decimal literals from the source are
written as exact fractions (`0.6 = 3/5`, `1.2 = 6/5`, `1.5 = 3/2`,
`0.9 = 9/10`).

Stateful/effectful parts (startup validation, the per-file processing loop)
are embedded as pure functions producing explicit lists of effects/events,
following the control flow of `src/index.js` line by line.
-/

namespace Watermarker

/-- Run configuration, from the commander option declarations
(`src/index.js` lines 10-24).  `watermark` and `text` are `Option String`
because the corresponding flags may be absent. -/
structure Config where
  input : String
  output : String
  watermark : Option String
  text : Option String
  position : String
  opacity : ℚ
  scale : ℚ
deriving DecidableEq, Repr

/-- JavaScript truthiness of an optional string: `undefined` and the empty
string are falsy, every other string is truthy.  This is the test performed
by `if (options.text)` / `!options.watermark` in the source. -/
def truthy : Option String → Bool
  | none => false
  | some s => s != ""

/-- Filesystem effects the startup code can perform before any image is
processed (`src/index.js` lines 26-39): the `fs.existsSync` check on the
input directory and the `fs.ensureDirSync` creation of the output
directory. -/
inductive FsEffect where
  | statInput
  | mkdirOutput
deriving DecidableEq, Repr

/-- Startup sequence of the module (`src/index.js` lines 26-39), as the list
of filesystem effects performed together with the exit code if the process
exits (`none` means startup passed and processing begins).  Faithful to the
source order: the input-directory check (line 27), then `ensureDirSync` on
the output directory (line 33), then the watermark/text validation
(line 36). -/
def startup (cfg : Config) (inputExists : Bool) : List FsEffect × Option ℕ :=
  if !inputExists then
    ([FsEffect.statInput], some 1)
  else if !truthy cfg.watermark && !truthy cfg.text then
    ([FsEffect.statInput, FsEffect.mkdirOutput], some 1)
  else
    ([FsEffect.statInput, FsEffect.mkdirOutput], none)

/-- JavaScript `String.prototype.toLowerCase`, embedded as a map of
`Char.toLower` over the characters (ASCII-faithful, which covers every
position keyword the program compares against). -/
def toLowerCase (s : String) : String :=
  ⟨s.data.map Char.toLower⟩

/-- Placement calculator (`getPositionCoordinates`, `src/index.js`
lines 42-58).  The source lowercases the position string before the
`switch`; `center` and the `default` arm coincide. -/
def getPositionCoordinates (position : String) (imageWidth imageHeight watermarkW watermarkH : ℚ) :
    ℚ × ℚ :=
  let padding : ℚ := 10
  match toLowerCase position with
  | "topleft" => (padding, padding)
  | "topright" => (imageWidth - watermarkW - padding, padding)
  | "bottomleft" => (padding, imageHeight - watermarkH - padding)
  | "bottomright" => (imageWidth - watermarkW - padding, imageHeight - watermarkH - padding)
  | "center" => ((imageWidth - watermarkW) / 2, (imageHeight - watermarkH) / 2)
  | _ => ((imageWidth - watermarkW) / 2, (imageHeight - watermarkH) / 2)

/-- Offsets actually handed to `sharp().composite` (`src/index.js`
lines 234-235): `Math.floor` of each coordinate returned by the placement
calculator. -/
def compositeOffsets (position : String) (imageWidth imageHeight watermarkW watermarkH : ℚ) :
    ℤ × ℤ :=
  let p := getPositionCoordinates position imageWidth imageHeight watermarkW watermarkH
  (⌊p.1⌋, ⌊p.2⌋)

/-- Width bound computed in `processImage` (`src/index.js` line 182):
`Math.max(50, imageWidth * parseFloat(options.scale))`. -/
def watermarkMaxWidth (imageWidth scale : ℚ) : ℚ :=
  max 50 (imageWidth * scale)

/-- Height bound computed in `processImage` (`src/index.js` line 183):
`Math.max(50, imageHeight * parseFloat(options.scale))`. -/
def watermarkMaxHeight (imageHeight scale : ℚ) : ℚ :=
  max 50 (imageHeight * scale)

/-- Effective text-watermark width inside `createTextWatermark`
(`src/index.js` line 78): `Math.max(50, width)` of the passed width. -/
def watermarkWidth (width : ℚ) : ℚ :=
  max 50 width

/-- Effective text-watermark height inside `createTextWatermark`
(`src/index.js` line 80): `Math.max(50, height * 0.6)` of the passed
height. -/
def watermarkHeight (height : ℚ) : ℚ :=
  max 50 (height * (3 / 5))

/-- Font size computed by `createTextWatermark` (`src/index.js`
lines 71-97) from the text length and the `(width, height)` arguments the
caller passes.  Follows the source statement by statement: the base size,
the long-text shrink, the cap, and the minimum of 12. -/
def fontSize (textLength : ℕ) (width height : ℚ) : ℚ :=
  let wmWidth := watermarkWidth width
  let wmHeight := watermarkHeight height
  let fontSize0 : ℤ := ⌊min (wmWidth / 5) (wmHeight / (6 / 5))⌋
  let fontSize1 : ℤ :=
    if 8 < textLength then
      ⌊(fontSize0 : ℚ) * min 1 ((8 : ℚ) / (textLength : ℚ)) * (3 / 2)⌋
    else fontSize0
  let maxFontSize : ℚ := min (wmWidth / ((textLength : ℚ) * (3 / 5))) (wmHeight * (9 / 10))
  let fontSize2 : ℚ := min (fontSize1 : ℚ) maxFontSize
  max 12 fontSize2

/-- Font-size formula exactly as the specification states it, over a target
box `(width, height)`: candidate `⌊min (width/5) (height/1.2)⌋`; if the
length exceeds 8 the candidate is replaced by
`⌊candidate * min 1 (8/length) * 1.5⌋`; the result is capped at
`min (width/(length*0.6)) (height*0.9)`. -/
def fontSizeClaim (textLength : ℕ) (width height : ℚ) : ℚ :=
  let candidate : ℤ := ⌊min (width / 5) (height / (6 / 5))⌋
  let candidate2 : ℤ :=
    if 8 < textLength then
      ⌊(candidate : ℚ) * min 1 ((8 : ℚ) / (textLength : ℚ)) * (3 / 2)⌋
    else candidate
  min (candidate2 : ℚ) (min (width / ((textLength : ℚ) * (3 / 5))) (height * (9 / 10)))

/-- Observable events of one `processImage` call (`src/index.js`
lines 137-248): the logged per-file errors of each early-return branch, the
construction of the overlay buffer (text variant with the box dimensions it
is given, or image variant, which reads and resizes the watermark file),
and the final composite outcome. -/
inductive Event where
  | accessError (file : String)
  | notFileError (file : String)
  | emptyError (file : String)
  | metadataError (file : String)
  | invalidDimsError (file : String)
  | buildTextOverlay (file : String) (width height : ℚ)
  | textOverlayError (file : String)
  | buildImageOverlay (file : String)
  | imageOverlayError (file : String)
  | wmMetadataError (file : String)
  | compositeOk (file : String)
  | compositeError (file : String)
deriving DecidableEq, Repr

/-- One discovered file as `processImage` observes it: its name, the
outcomes of the access/stat checks, the decoded metadata (`none` when
`sharp().metadata()` throws), and flags abstracting whether the three
library calls that can throw per file (overlay construction, watermark
metadata decode, composite/encode) fail for this file. -/
structure FileInfo where
  name : String
  readable : Bool
  isFile : Bool
  size : ℕ
  meta : Option (ℕ × ℕ)
  overlayFails : Bool
  wmMetaFails : Bool
  compositeFails : Bool
deriving DecidableEq, Repr

/-- Per-file pipeline (`processImage`, `src/index.js` lines 137-248) as the
list of events it produces.  Every failing step is an early return carrying
exactly one logged error, matching the `return` statements of the source;
the overlay branch is selected by the truthiness of `options.text`
(line 187). -/
def processImage (cfg : Config) (f : FileInfo) : List Event :=
  if !f.readable then [Event.accessError f.name]
  else if !f.isFile then [Event.notFileError f.name]
  else if f.size = 0 then [Event.emptyError f.name]
  else
    match f.meta with
    | none => [Event.metadataError f.name]
    | some (w, h) =>
      if w = 0 ∨ h = 0 then [Event.invalidDimsError f.name]
      else
        let wmMaxW := watermarkMaxWidth (w : ℚ) cfg.scale
        let wmMaxH := watermarkMaxHeight (h : ℚ) cfg.scale
        if truthy cfg.text then
          if f.overlayFails then [Event.textOverlayError f.name]
          else if f.wmMetaFails then
            [Event.buildTextOverlay f.name wmMaxW wmMaxH, Event.wmMetadataError f.name]
          else if f.compositeFails then
            [Event.buildTextOverlay f.name wmMaxW wmMaxH, Event.compositeError f.name]
          else
            [Event.buildTextOverlay f.name wmMaxW wmMaxH, Event.compositeOk f.name]
        else
          if f.overlayFails then [Event.imageOverlayError f.name]
          else if f.wmMetaFails then
            [Event.buildImageOverlay f.name, Event.wmMetadataError f.name]
          else if f.compositeFails then
            [Event.buildImageOverlay f.name, Event.compositeError f.name]
          else
            [Event.buildImageOverlay f.name, Event.compositeOk f.name]

/-- The sequential loop of `main` (`src/index.js` lines 266-268): process
each discovered file in order, concatenating the events. -/
def processRun (cfg : Config) : List FileInfo → List Event
  | [] => []
  | f :: fs => processImage cfg f ++ processRun cfg fs

/-- Recognizes the event of building (and hence reading) the image-variant
overlay. -/
def isBuildImageOverlay : Event → Bool
  | Event.buildImageOverlay _ => true
  | _ => false

/-- Recognizes the event of building the text-variant overlay. -/
def isBuildTextOverlay : Event → Bool
  | Event.buildTextOverlay _ _ _ => true
  | _ => false

/-- Recognizes a successful composite-and-write. -/
def isCompositeOk : Event → Bool
  | Event.compositeOk _ => true
  | _ => false

/-- Recognizes any of the per-file logged errors. -/
def isErrorEvent : Event → Bool
  | Event.buildTextOverlay _ _ _ => false
  | Event.buildImageOverlay _ => false
  | Event.compositeOk _ => false
  | _ => true

/-- A file reaches the overlay-construction step and the construction
succeeds: all validations pass and the overlay library call does not
throw. -/
def overlayBuilt (f : FileInfo) : Bool :=
  f.readable && f.isFile && (f.size != 0) &&
    (match f.meta with
     | none => false
     | some (w, h) => (w != 0) && (h != 0)) &&
    !f.overlayFails

/-- Some per-file step fails for this file (any validation, the overlay
construction, the watermark metadata decode, or the composite/encode). -/
def fileFails (f : FileInfo) : Bool :=
  !f.readable || !f.isFile || (f.size == 0) ||
    (match f.meta with
     | none => true
     | some (w, h) => (w == 0) || (h == 0)) ||
    f.overlayFails || f.wmMetaFails || f.compositeFails

/-- Configuration with both a watermark image and watermark text supplied. -/
def cfgBoth : Config :=
  ⟨"images", "out", some "logo.png", some "sample text", "bottomright", 1 / 2, 1 / 5⟩

/-- Configuration with neither a watermark image nor watermark text. -/
def cfgNeither : Config :=
  ⟨"images", "out", none, none, "bottomright", 1 / 2, 1 / 5⟩

/-- Configuration with only a watermark image (image-overlay mode). -/
def cfgImage : Config :=
  ⟨"images", "out", some "logo.png", none, "bottomright", 1 / 2, 1 / 5⟩

/-- Configuration with only watermark text (text-overlay mode). -/
def cfgText : Config :=
  ⟨"images", "out", none, some "hello", "bottomright", 1 / 2, 1 / 5⟩

/-- A readable, valid 500x300 image file. -/
def fileA : FileInfo :=
  ⟨"a.png", true, true, 100, some (500, 300), false, false, false⟩

/-- A readable, valid 640x480 image file. -/
def fileB : FileInfo :=
  ⟨"b.png", true, true, 200, some (640, 480), false, false, false⟩

/-- A zero-byte file: fails the size validation. -/
def fileEmpty : FileInfo :=
  ⟨"empty.png", true, true, 0, none, false, false, false⟩

/-- Claim C5: the placement calculator returns (10,10) for topleft,
(W-w-10, 10) for topright, (10, H-h-10) for bottomleft,
(W-w-10, H-h-10) for bottomright, and ((W-w)/2, (H-h)/2) for center and
for every position string not naming one of the five cases; each corner
placement leaves exactly 10px between the overlay and the relevant
base-image edges. -/
theorem getPositionCoordinates_spec (W H w h : ℚ) (position : String) :
    getPositionCoordinates "topleft" W H w h = (10, 10)
    ∧ getPositionCoordinates "topright" W H w h = (W - w - 10, 10)
    ∧ getPositionCoordinates "bottomleft" W H w h = (10, H - h - 10)
    ∧ getPositionCoordinates "bottomright" W H w h = (W - w - 10, H - h - 10)
    ∧ getPositionCoordinates "center" W H w h = ((W - w) / 2, (H - h) / 2)
    ∧ (toLowerCase position ∉ ["topleft", "topright", "bottomleft", "bottomright", "center"] →
        getPositionCoordinates position W H w h = ((W - w) / 2, (H - h) / 2))
    ∧ W - ((getPositionCoordinates "topright" W H w h).1 + w) = 10
    ∧ H - ((getPositionCoordinates "bottomleft" W H w h).2 + h) = 10
    ∧ W - ((getPositionCoordinates "bottomright" W H w h).1 + w) = 10
    ∧ H - ((getPositionCoordinates "bottomright" W H w h).2 + h) = 10 := by
  refine ⟨rfl, rfl, rfl, rfl, rfl, ?_, ?_, ?_, ?_, ?_⟩
  · intro hmem
    simp only [List.mem_cons, List.not_mem_nil, or_false, not_or] at hmem
    unfold getPositionCoordinates
    split <;> simp_all
  · show W - (W - w - 10 + w) = 10; ring
  · show H - (H - h - 10 + h) = 10; ring
  · show W - (W - w - 10 + w) = 10; ring
  · show H - (H - h - 10 + h) = 10; ring

/-- Witness for C5 at concrete inputs, with the unknown-position hypothesis
discharged for the string "diagonal". -/
theorem getPositionCoordinates_spec_witness :
    getPositionCoordinates "diagonal" 200 100 30 20 = ((200 - 30) / 2, (100 - 20) / 2) := by
  have h := getPositionCoordinates_spec 200 100 30 20 "diagonal"
  exact h.2.2.2.2.2.1 (by decide)

/-- Claim C6: the font size computed by `createTextWatermark` is exactly
the 12px floor of the specification's formula (candidate, long-text
shrink, cap) evaluated at the effective text box
`(max 50 width, max 50 (height*0.6))`. -/
theorem fontSize_matches_claim (textLength : ℕ) (width height : ℚ)
    (h : 1 ≤ textLength) :
    fontSize textLength width height =
      max 12 (fontSizeClaim textLength (watermarkWidth width) (watermarkHeight height)) := rfl

/-- Witness for C6 at text length 3 and a 100x60 box. -/
theorem fontSize_matches_claim_witness :
    fontSize 3 100 60 = max 12 (fontSizeClaim 3 (watermarkWidth 100) (watermarkHeight 60)) :=
  fontSize_matches_claim 3 100 60 (by decide)

/-- Claim C7: the final font size is at least 12 pixels for every non-empty
text and every target box. -/
theorem fontSize_at_least_twelve (textLength : ℕ) (width height : ℚ)
    (h : 1 ≤ textLength) :
    12 ≤ fontSize textLength width height := by
  unfold fontSize
  exact le_max_left _ _

/-- Witness for C7: a 30-character text in a tiny 1x1 box still gets a
12px font. -/
theorem fontSize_at_least_twelve_witness : 12 ≤ fontSize 30 1 1 :=
  fontSize_at_least_twelve 30 1 1 (by decide)

/-- Claim C9: the offsets handed to the compositor are the floors of the
placement calculator's coordinates, and for center placement with an odd
width (resp. height) difference the floored offset differs from the exact
half-pixel value. -/
theorem compositeOffsets_floor (position : String) (W H w h : ℚ) (Wi Hi wi hi : ℤ) :
    compositeOffsets position W H w h =
      (⌊(getPositionCoordinates position W H w h).1⌋,
       ⌊(getPositionCoordinates position W H w h).2⌋)
    ∧ (Odd (Wi - wi) →
        (((compositeOffsets "center" (Wi : ℚ) (Hi : ℚ) (wi : ℚ) (hi : ℚ)).1 : ℚ) ≠
          ((Wi : ℚ) - (wi : ℚ)) / 2))
    ∧ (Odd (Hi - hi) →
        (((compositeOffsets "center" (Wi : ℚ) (Hi : ℚ) (wi : ℚ) (hi : ℚ)).2 : ℚ) ≠
          ((Hi : ℚ) - (hi : ℚ)) / 2)) := by
  refine ⟨rfl, ?_, ?_⟩
  · intro hodd heq
    have hfloor : ((⌊((Wi : ℚ) - (wi : ℚ)) / 2⌋ : ℤ) : ℚ) = ((Wi : ℚ) - (wi : ℚ)) / 2 := heq
    have h2 : ((Wi : ℚ) - (wi : ℚ)) = 2 * ((⌊((Wi : ℚ) - (wi : ℚ)) / 2⌋ : ℤ) : ℚ) := by
      rw [hfloor]; ring
    have h3 : Wi - wi = 2 * ⌊((Wi : ℚ) - (wi : ℚ)) / 2⌋ := by exact_mod_cast h2
    rcases hodd with ⟨k, hk⟩
    omega
  · intro hodd heq
    have hfloor : ((⌊((Hi : ℚ) - (hi : ℚ)) / 2⌋ : ℤ) : ℚ) = ((Hi : ℚ) - (hi : ℚ)) / 2 := heq
    have h2 : ((Hi : ℚ) - (hi : ℚ)) = 2 * ((⌊((Hi : ℚ) - (hi : ℚ)) / 2⌋ : ℤ) : ℚ) := by
      rw [hfloor]; ring
    have h3 : Hi - hi = 2 * ⌊((Hi : ℚ) - (hi : ℚ)) / 2⌋ := by exact_mod_cast h2
    rcases hodd with ⟨k, hk⟩
    omega

/-- Witness for C9 with 101-20 = 81 and 100-19 = 81, both odd. -/
theorem compositeOffsets_floor_witness :
    compositeOffsets "topleft" 5 5 2 2 =
      (⌊(getPositionCoordinates "topleft" 5 5 2 2).1⌋,
       ⌊(getPositionCoordinates "topleft" 5 5 2 2).2⌋)
    ∧ (((compositeOffsets "center" ((101 : ℤ) : ℚ) ((100 : ℤ) : ℚ) ((20 : ℤ) : ℚ) ((19 : ℤ) : ℚ)).1 : ℚ) ≠
        (((101 : ℤ) : ℚ) - ((20 : ℤ) : ℚ)) / 2)
    ∧ (((compositeOffsets "center" ((101 : ℤ) : ℚ) ((100 : ℤ) : ℚ) ((20 : ℤ) : ℚ) ((19 : ℤ) : ℚ)).2 : ℚ) ≠
        (((100 : ℤ) : ℚ) - ((19 : ℤ) : ℚ)) / 2) := by
  have h := compositeOffsets_floor "topleft" 5 5 2 2 101 100 20 19
  exact ⟨h.1, h.2.1 (by decide), h.2.2 (by decide)⟩

/-- Counterexample to C2 at a 500x300 base image with the default scale
0.2: the height passed to the text overlay builder is
`max 50 (300*0.2) = 60`, and the builder's effective height is
`max 50 (60*0.6) = 50`; neither equals the claimed
`max 50 (300*0.6) = 180`. -/
theorem textBox_height_counterexample :
    watermarkMaxHeight 300 (1 / 5) ≠ max 50 (300 * (3 / 5))
    ∧ watermarkHeight (watermarkMaxHeight 300 (1 / 5)) ≠ max 50 (300 * (3 / 5)) := by
  constructor
  · show max (50 : ℚ) (300 * (1 / 5)) ≠ max 50 (300 * (3 / 5))
    norm_num
  · show max (50 : ℚ) (max 50 (300 * (1 / 5)) * (3 / 5)) ≠ max 50 (300 * (3 / 5))
    norm_num

/-- Amended C2: the box passed to the text overlay builder is
`(max 50 (W*s), max 50 (H*s))`, and the builder's effective text box is
width `max 50 (W*s)` and height `max 50 (passedHeight * 0.6)`. -/
theorem textBox_dimensions (W H s : ℚ) :
    (watermarkMaxWidth W s, watermarkMaxHeight H s) = (max 50 (W * s), max 50 (H * s))
    ∧ watermarkWidth (watermarkMaxWidth W s) = max 50 (W * s)
    ∧ watermarkHeight (watermarkMaxHeight H s) =
        max 50 (watermarkMaxHeight H s * (3 / 5)) := by
  refine ⟨rfl, ?_, rfl⟩
  show max (50 : ℚ) (max 50 (W * s)) = max 50 (W * s)
  exact max_eq_right (le_max_left _ _)

/-- Counterexample to C1: a startup with both the watermark image path and
the watermark text set is not rejected — the validation passes and
processing begins. -/
theorem startup_both_not_rejected : (startup cfgBoth true).2 = none := by decide

/-- Amended C1: at least one of {watermark image path, watermark text} must
be truthy: a run with neither exits non-zero at startup, and a run with at
least one (including a run with both) passes the startup validation. -/
theorem startup_requires_watermark_or_text (cfg : Config) :
    (truthy cfg.watermark = false → truthy cfg.text = false → (startup cfg true).2 = some 1)
    ∧ (truthy cfg.watermark = true ∨ truthy cfg.text = true → (startup cfg true).2 = none) := by
  constructor
  · intro hw ht
    simp [startup, hw, ht]
  · intro hor
    rcases hor with hw | ht
    · simp [startup, hw]
    · simp [startup, ht]

/-- Witness for amended C1 at the concrete neither/both configurations. -/
theorem startup_requires_watermark_or_text_witness :
    (startup cfgNeither true).2 = some 1 ∧ (startup cfgBoth true).2 = none := by
  have h1 := startup_requires_watermark_or_text cfgNeither
  have h2 := startup_requires_watermark_or_text cfgBoth
  exact ⟨h1.1 (by decide) (by decide), h2.2 (Or.inl (by decide))⟩

/-- Counterexample to C4: with neither watermark source set (and the input
directory existing), the run does exit non-zero, but the output directory
has already been created by `ensureDirSync` before the validation runs. -/
theorem startup_neither_creates_output_dir :
    FsEffect.mkdirOutput ∈ (startup cfgNeither true).1
    ∧ (startup cfgNeither true).2 = some 1 := by decide

/-- Amended C4: when both watermark sources are unset, the process exits
non-zero before processing any image, and its filesystem effects are
exactly the input-directory check followed by the creation of the output
directory. -/
theorem startup_neither_exits_after_mkdir (cfg : Config)
    (hw : truthy cfg.watermark = false) (ht : truthy cfg.text = false) :
    startup cfg true = ([FsEffect.statInput, FsEffect.mkdirOutput], some 1) := by
  simp [startup, hw, ht]

/-- Witness for amended C4 at the concrete neither-set configuration. -/
theorem startup_neither_exits_after_mkdir_witness :
    startup cfgNeither true = ([FsEffect.statInput, FsEffect.mkdirOutput], some 1) :=
  startup_neither_exits_after_mkdir cfgNeither (by decide) (by decide)

/-- Per-file count of image-overlay builds in image-watermark mode: one per
file that passes validation and whose overlay construction succeeds, zero
otherwise. -/
lemma processImage_countP_buildImage (cfg : Config) (f : FileInfo)
    (htext : truthy cfg.text = false) :
    (processImage cfg f).countP isBuildImageOverlay =
      if overlayBuilt f then 1 else 0 := by
  rcases f with ⟨name, readable, isFile, size, meta, ovf, wmf, cpf⟩
  simp only [processImage, overlayBuilt, htext]
  cases readable <;> cases isFile <;> cases ovf <;> cases wmf <;> cases cpf <;>
    rcases meta with _ | ⟨w, h⟩ <;> rcases size with _ | size <;>
    simp_all [isBuildImageOverlay, List.countP_cons, List.countP_nil] <;>
    rcases w with _ | w <;> rcases h with _ | h <;>
    simp_all [isBuildImageOverlay, List.countP_cons, List.countP_nil]

/-- Counterexample to C3: an image-watermark run over two valid files
builds the image overlay twice, one build per file, not once per run. -/
theorem imageOverlay_not_built_once :
    (processRun cfgImage [fileA, fileB]).countP isBuildImageOverlay = 2
    ∧ (processRun cfgImage [fileA, fileB]).countP isBuildImageOverlay ≠ 1 := by decide

/-- Amended C3: in an image-watermark run the overlay buffer is rebuilt for
every file: the run performs exactly one image-overlay build per file that
passes validation (its resize width depends on that file's dimensions), so
the number of builds equals the number of such files, not one. -/
theorem imageOverlay_rebuilt_per_file (cfg : Config) (files : List FileInfo)
    (htext : truthy cfg.text = false) :
    (processRun cfg files).countP isBuildImageOverlay = files.countP overlayBuilt := by
  induction files with
  | nil => rfl
  | cons f fs ih =>
    simp only [processRun, List.countP_append, List.countP_cons, ih,
      processImage_countP_buildImage cfg f htext]
    cases hov : overlayBuilt f <;> simp [hov] <;> omega

/-- Witness for amended C3 on the two-file image-watermark run. -/
theorem imageOverlay_rebuilt_per_file_witness :
    (processRun cfgImage [fileA, fileB]).countP isBuildImageOverlay =
      [fileA, fileB].countP overlayBuilt :=
  imageOverlay_rebuilt_per_file cfgImage [fileA, fileB] (by decide)

/-- Concatenation of runs: processing a concatenated file list produces the
concatenated events. -/
lemma processRun_append (cfg : Config) (xs ys : List FileInfo) :
    processRun cfg (xs ++ ys) = processRun cfg xs ++ processRun cfg ys := by
  induction xs with
  | nil => rfl
  | cons f fs ih => simp [processRun, ih]

/-- A failing file produces exactly one logged error and no successful
composite. -/
lemma processImage_fail_counts (cfg : Config) (f : FileInfo)
    (hf : fileFails f = true) :
    (processImage cfg f).countP isErrorEvent = 1
    ∧ (processImage cfg f).countP isCompositeOk = 0 := by
  rcases f with ⟨name, readable, isFile, size, meta, ovf, wmf, cpf⟩
  simp only [processImage, fileFails] at hf ⊢
  cases htext : truthy cfg.text <;>
    cases readable <;> cases isFile <;> cases ovf <;> cases wmf <;> cases cpf <;>
    rcases meta with _ | ⟨w, h⟩ <;> rcases size with _ | size <;>
    simp_all [isErrorEvent, isCompositeOk, List.countP_cons, List.countP_nil] <;>
    rcases w with _ | w <;> rcases h with _ | h <;>
    simp_all [isErrorEvent, isCompositeOk, List.countP_cons, List.countP_nil]

/-- Claim C8: the run over any file list decomposes file by file — a
failing file contributes exactly one logged error, produces no output
write, and the remaining files are processed exactly as they would be on
their own; no per-file failure aborts the run. -/
theorem perFile_failure_isolated (cfg : Config) (fs1 : List FileInfo) (f : FileInfo)
    (fs2 : List FileInfo) :
    processRun cfg (fs1 ++ f :: fs2) =
      processRun cfg fs1 ++ processImage cfg f ++ processRun cfg fs2
    ∧ (fileFails f = true →
        (processImage cfg f).countP isErrorEvent = 1
        ∧ (processImage cfg f).countP isCompositeOk = 0) := by
  constructor
  · rw [processRun_append]
    simp [processRun, List.append_assoc]
  · exact processImage_fail_counts cfg f

/-- Witness for C8: a zero-byte file between two valid files in a text run
is skipped with one error while both neighbours are still processed. -/
theorem perFile_failure_isolated_witness :
    processRun cfgText ([fileA] ++ fileEmpty :: [fileB]) =
      processRun cfgText [fileA] ++ processImage cfgText fileEmpty ++ processRun cfgText [fileB]
    ∧ (processImage cfgText fileEmpty).countP isErrorEvent = 1
    ∧ (processImage cfgText fileEmpty).countP isCompositeOk = 0 := by
  have h := perFile_failure_isolated cfgText [fileA] fileEmpty [fileB]
  exact ⟨h.1, h.2 (by decide)⟩

/-- Claim C10: when both the watermark image path and the watermark text
are truthy, the text branch is taken: no image-overlay build (and hence no
read of the watermark image file) occurs for any file, and every file that
reaches overlay construction successfully gets a text overlay. -/
theorem text_takes_precedence (cfg : Config) (f : FileInfo)
    (htext : truthy cfg.text = true) (hwm : truthy cfg.watermark = true) :
    (processImage cfg f).countP isBuildImageOverlay = 0
    ∧ (overlayBuilt f = true → (processImage cfg f).countP isBuildTextOverlay = 1) := by
  rcases f with ⟨name, readable, isFile, size, meta, ovf, wmf, cpf⟩
  simp only [processImage, overlayBuilt, htext]
  cases readable <;> cases isFile <;> cases ovf <;> cases wmf <;> cases cpf <;>
    rcases meta with _ | ⟨w, h⟩ <;> rcases size with _ | size <;>
    simp_all [isBuildImageOverlay, isBuildTextOverlay, List.countP_cons, List.countP_nil] <;>
    rcases w with _ | w <;> rcases h with _ | h <;>
    simp_all [isBuildImageOverlay, isBuildTextOverlay, List.countP_cons, List.countP_nil]

/-- Witness for C10: the both-set configuration on a valid file builds a
text overlay and never an image overlay. -/
theorem text_takes_precedence_witness :
    (processImage cfgBoth fileA).countP isBuildImageOverlay = 0
    ∧ (processImage cfgBoth fileA).countP isBuildTextOverlay = 1 := by
  have h := text_takes_precedence cfgBoth fileA (by decide) (by decide)
  exact ⟨h.1, h.2 (by decide)⟩

end Watermarker
